import Mathlib

/-!
# Verification of the Keycloak OAuth2/PKCE login client

Shallow embedding of the authentication lifecycle code of the repository
(the Pinia auth store `src/stores/authStore.js` / `src/src/stores/authStore.js`
and the `CSPSafeKeycloakService` variants in `src/services/csp-safe-keycloak.js`,
`src/src/services/csp-safe-keycloak.js` and `src/unnamed/part_001`), together
with proofs about the embedded definitions.

Conventions of the embedding:
* JavaScript numbers used for epoch milliseconds are modelled as `Int`.
* `localStorage` / `sessionStorage` slots are `Option` fields of explicit
  state records; `removeItem` sets the field to `none`.
* A `setTimeout` timer is modelled by the absolute epoch-ms instant at which
  it is scheduled to fire (`none` = no pending timer); `clearTimeout` sets it
  to `none`.  A `setInterval` handle is modelled by a Boolean `armed` flag.
* JS truthiness is modelled explicitly where the code branches on it
  (`null`, `undefined`, `""` and `0` are falsy).
* A JWT is modelled as its raw string together with the result of decoding
  its payload (`none` when `JSON.parse(atob(...))` would throw).
* Network calls are modelled by passing the response as an explicit argument
  (`none` = non-2xx / network failure), and the embedding counts how many
  such requests are issued.
-/

namespace KeycloakLogin

/-! ## JavaScript helpers -/

/-- Truthiness of a JS string-or-null value: `null` and `""` are falsy. -/
def jsTruthyStr : Option String → Bool
  | none => false
  | some s => s ≠ ""

/-- Falsiness of a JS number-or-null value: `null` and `0` are falsy. -/
def jsFalsyNum : Option Int → Bool
  | none => true
  | some n => n = 0

/-- JS `a || b` on string-or-null values (used for
`sessionStorage.getItem(k1) || sessionStorage.getItem(k2)`). -/
def jsOrStr (a b : Option String) : Option String :=
  match a with
  | none => b
  | some s => if s = "" then b else some s

/-- Lookup in a JS object literal `{ ...base, ...opts }` built by spreading
`opts` after the fixed entries `base`: a key of `opts` overrides the same key
of `base`.  Models the argument of `new URLSearchParams({...})`. -/
def objGet (base opts : List (String × String)) (k : String) : Option String :=
  match (opts.find? (fun p => p.1 == k)).map (·.2) with
  | some v => some v
  | none => (base.find? (fun p => p.1 == k)).map (·.2)

/-! ## PKCE utility (`generateCodeChallenge`)

`generateCodeChallenge` (identical in `src/services/csp-safe-keycloak.js`
lines 334-342 and `src/unnamed/part_001` lines 462-470) computes
`btoa(String.fromCharCode(...new Uint8Array(digest)))` for the SHA-256
digest produced by `crypto.subtle.digest`, then replaces `+` by `-`,
`/` by `_` and deletes every `=`.  The platform digest is modelled as an
explicit function argument `digest` from the UTF-8 bytes to the digest
bytes; the byte-to-string encoding pipeline is embedded exactly. -/

/-- The standard base64 alphabet used by `btoa`. -/
def stdAlphabet : List Char :=
  "ABCDEFGHIJKLMNOPQRSTUVWXYZabcdefghijklmnopqrstuvwxyz0123456789+/".toList

/-- The base64url alphabet (RFC 4648 §5). -/
def urlAlphabet : List Char :=
  "ABCDEFGHIJKLMNOPQRSTUVWXYZabcdefghijklmnopqrstuvwxyz0123456789-_".toList

/-- `btoa` on a list of bytes: standard base64 with `=` padding.
Each 3-byte group is split into four 6-bit indices. -/
def b64encode : List Nat → List Char
  | [] => []
  | [b1] =>
      [stdAlphabet.getD (b1 / 4) 'A', stdAlphabet.getD (b1 % 4 * 16) 'A', '=', '=']
  | [b1, b2] =>
      [stdAlphabet.getD (b1 / 4) 'A', stdAlphabet.getD (b1 % 4 * 16 + b2 / 16) 'A',
       stdAlphabet.getD (b2 % 16 * 4) 'A', '=']
  | b1 :: b2 :: b3 :: rest =>
      stdAlphabet.getD (b1 / 4) 'A' :: stdAlphabet.getD (b1 % 4 * 16 + b2 / 16) 'A' ::
      stdAlphabet.getD (b2 % 16 * 4 + b3 / 64) 'A' :: stdAlphabet.getD (b3 % 64) 'A' ::
      b64encode rest

/-- Base64url encoding without padding, written from the spec's words
("base64url-encoded without padding"); used as the independent reference
against which the source pipeline is compared. -/
def b64urlNoPad : List Nat → List Char
  | [] => []
  | [b1] =>
      [urlAlphabet.getD (b1 / 4) 'A', urlAlphabet.getD (b1 % 4 * 16) 'A']
  | [b1, b2] =>
      [urlAlphabet.getD (b1 / 4) 'A', urlAlphabet.getD (b1 % 4 * 16 + b2 / 16) 'A',
       urlAlphabet.getD (b2 % 16 * 4) 'A']
  | b1 :: b2 :: b3 :: rest =>
      urlAlphabet.getD (b1 / 4) 'A' :: urlAlphabet.getD (b1 % 4 * 16 + b2 / 16) 'A' ::
      urlAlphabet.getD (b2 % 16 * 4 + b3 / 64) 'A' :: urlAlphabet.getD (b3 % 64) 'A' ::
      b64urlNoPad rest

/-- `.replace(/\+/g, '-').replace(/\//g, '_')` on a single character. -/
def replacePlusSlash (c : Char) : Char :=
  if c = '+' then '-' else if c = '/' then '_' else c

/-- The encoding pipeline of `generateCodeChallenge` applied to the digest
bytes: `btoa`, then the two character replacements, then
`.replace(/=/g, '')` (deletion of every `=`). -/
def codeChallengeEncode (bytes : List Nat) : List Char :=
  ((b64encode bytes).map replacePlusSlash).filter (fun c => c ≠ '=')

/-- UTF-8 bytes of a string (the `TextEncoder().encode(verifier)` step). -/
def utf8Bytes (s : String) : List Nat :=
  s.toUTF8.toList.map (·.toNat)

/-- Embedding of `generateCodeChallenge(verifier)`.  `digest` stands for the
platform SHA-256 (`crypto.subtle.digest('SHA-256', ·)`), mapping the UTF-8
bytes of the verifier to the digest bytes.  The function is a pure Lean
function, hence deterministic in `verifier` for a fixed digest function. -/
def generateCodeChallenge (digest : List Nat → List Nat) (verifier : String) : String :=
  String.mk (codeChallengeEncode (digest (utf8Bytes verifier)))

/-- Reference value from the spec's words: the digest, base64url-encoded
without padding. -/
def generateCodeChallengeSpec (digest : List Nat → List Nat) (verifier : String) : String :=
  String.mk (b64urlNoPad (digest (utf8Bytes verifier)))

/-! ## Data model -/

/-- Decoded `realm_access` claim of a JWT payload. -/
structure RealmAccess where
  roles : Option (List String)
  deriving DecidableEq, Repr

/-- Decoded (unverified) JWT payload, with `none` for absent claims. -/
structure IdPayload where
  sub : Option String
  preferred_username : Option String
  email : Option String
  given_name : Option String
  family_name : Option String
  name : Option String
  realm_access : Option RealmAccess
  groups : Option (List String)
  deriving DecidableEq, Repr

/-- A JWT: raw compact form plus the result of decoding its payload;
`payload = none` models a token for which `JSON.parse(atob(jwt.split('.')[1]))`
throws. -/
structure Jwt where
  raw : String
  payload : Option IdPayload
  deriving DecidableEq, Repr

/-- A token-endpoint response body (`TokenSet`). -/
structure TokenSet where
  access_token : Option String
  refresh_token : Option String
  id_token : Option Jwt
  expires_in : Option Int
  deriving DecidableEq, Repr

/-- The user object built by `setTokens` from the ID-token payload. -/
structure UserRec where
  id : Option String
  username : Option String
  email : Option String
  firstName : Option String
  lastName : Option String
  name : Option String
  roles : Option (List String)
  groups : Option (List String)
  deriving DecidableEq, Repr

/-- A value held by the store's `user` ref: either the mapped record built by
`setTokens`, or a raw decoded payload (assigned directly by the
`src/src/stores` initialization path from `keycloakService.userInfo`). -/
inductive UserVal where
  | mapped (u : UserRec)
  | claims (p : IdPayload)
  deriving DecidableEq, Repr

/-- The `roles` property read by `hasRole` (`user.value?.roles`): present on
a mapped record when its `roles` field is, absent on a raw payload object
(a decoded ID-token payload has `realm_access`, not `roles`). -/
def UserVal.rolesProp : UserVal → Option (List String)
  | .mapped u => u.roles
  | .claims _ => none

/-- The JSON persisted under the durable key `auth_tokens`. -/
structure PersistedTokens where
  access_token : Option String
  refresh_token : Option String
  id_token : Option Jwt
  deriving DecidableEq, Repr

/-- State of the Pinia auth store (`src/stores/authStore.js`; the fields and
the helpers modelled below are identical in `src/src/stores/authStore.js`).
`auth_tokens` / `auth_user` / `auth_expires_at` are the durable
`localStorage` slots of the same names; `refreshTimer` is the pending
`sessionTimeout` timeout, recorded as its absolute fire instant. -/
structure StoreState where
  accessToken : Option String
  refreshToken : Option String
  idToken : Option Jwt
  user : Option UserVal
  isAuthenticated : Bool
  tokenExpiresAt : Option Int
  error : Option String
  refreshTimer : Option Int
  auth_tokens : Option PersistedTokens
  auth_user : Option UserVal
  auth_expires_at : Option Int
  deriving DecidableEq, Repr

/-- Store state with nothing set (all refs `null`, durable slots empty). -/
def emptyStore : StoreState :=
  ⟨none, none, none, none, false, none, none, none, none, none, none⟩

/-! ## Auth store computed getters (`src/stores/authStore.js` lines 35-62) -/

/-- `isTokenExpired`: `if (!tokenExpiresAt.value) return true;
return Date.now() >= tokenExpiresAt.value`. -/
def isTokenExpired (now : Int) (s : StoreState) : Bool :=
  if jsFalsyNum s.tokenExpiresAt then true
  else now ≥ s.tokenExpiresAt.getD 0

/-- `isTokenExpiringSoon`: `if (!tokenExpiresAt.value) return false;
return Date.now() >= (tokenExpiresAt.value - 5 * 60 * 1000)` — the lead time
is hard-coded to 5 minutes (300000 ms). -/
def isTokenExpiringSoon (now : Int) (s : StoreState) : Bool :=
  if jsFalsyNum s.tokenExpiresAt then false
  else now ≥ s.tokenExpiresAt.getD 0 - 5 * 60 * 1000

/-- `hasRole(role)`: `if (!user.value?.roles) return false;
return user.value.roles.includes(role)`.  (An empty `roles` array is truthy
in JS, and `[].includes(role)` is `false`, so modelling the truthiness test
as an `Option` test is behaviour-equivalent.) -/
def hasRole (s : StoreState) (role : String) : Bool :=
  match s.user with
  | none => false
  | some u =>
    match u.rolesProp with
    | none => false
    | some rs => rs.contains role

/-! ## Auth store helpers (`src/stores/authStore.js` lines 269-350) -/

/-- Map a decoded ID-token payload to the store's user object
(`setTokens` lines 283-292): `roles: payload.realm_access?.roles || []`,
`groups: payload.groups || []`. -/
def payloadToUser (p : IdPayload) : UserRec :=
  ⟨p.sub, p.preferred_username, p.email, p.given_name, p.family_name, p.name,
   some ((p.realm_access.bind (·.roles)).getD []), some (p.groups.getD [])⟩

/-- `persistUserData`: writes `auth_user` when a user object is present. -/
def persistUserData (s : StoreState) : StoreState :=
  match s.user with
  | some u => { s with auth_user := some u }
  | none => s

/-- `persistAuthData`: writes `auth_tokens` when an access token is truthy,
`auth_expires_at` when the expiry is truthy, then persists the user. -/
def persistAuthData (s : StoreState) : StoreState :=
  let s1 :=
    if jsTruthyStr s.accessToken then
      { s with auth_tokens := some ⟨s.accessToken, s.refreshToken, s.idToken⟩ }
    else s
  let s2 :=
    if jsFalsyNum s1.tokenExpiresAt then s1
    else { s1 with auth_expires_at := s1.tokenExpiresAt }
  persistUserData s2

/-- `setTokens(tokens)` at clock reading `now`: stores the three tokens,
sets `tokenExpiresAt = Date.now() + expires_in * 1000` when `expires_in` is
truthy, rebuilds the user object from the ID-token payload (a payload parse
failure is caught and leaves `user` unchanged), then persists. -/
def setTokens (now : Int) (tks : TokenSet) (s : StoreState) : StoreState :=
  let s1 := { s with accessToken := tks.access_token,
                     refreshToken := tks.refresh_token,
                     idToken := tks.id_token }
  let s2 :=
    match tks.expires_in with
    | some n => if n = 0 then s1 else { s1 with tokenExpiresAt := some (now + n * 1000) }
    | none => s1
  let s3 :=
    match tks.id_token with
    | some jwt =>
      match jwt.payload with
      | some p => { s2 with user := some (.mapped (payloadToUser p)) }
      | none => s2
    | none => s2
  persistAuthData s3

/-- `clearAuthState`: nulls every in-memory ref, sets `isAuthenticated` to
`false`, removes the three durable keys and cancels the pending timeout. -/
def clearAuthState (s : StoreState) : StoreState :=
  { s with accessToken := none, refreshToken := none, idToken := none,
           user := none, isAuthenticated := false, tokenExpiresAt := none,
           error := none, auth_tokens := none, auth_user := none,
           auth_expires_at := none, refreshTimer := none }

/-- `logout(redirectToKeycloak)`: clears the auth state; when
`redirectToKeycloak` is `true` it additionally redirects the browser to the
identity provider's end-session endpoint, which has no further effect on the
store state modelled here. -/
def logout (_redirectToKeycloak : Bool) (s : StoreState) : StoreState :=
  clearAuthState s

/-- `setupTokenRefresh` at clock reading `now`: cancels any pending timeout,
then (when an expiry is set) arms a timeout for
`tokenExpiresAt - Date.now() - 2*60*1000` ms from now, provided that delay is
positive. -/
def setupTokenRefresh (now : Int) (s : StoreState) : StoreState :=
  let s1 := { s with refreshTimer := none }
  if jsFalsyNum s1.tokenExpiresAt then s1
  else
    let rt := s1.tokenExpiresAt.getD 0 - now - 2 * 60 * 1000
    if rt > 0 then { s1 with refreshTimer := some (now + rt) } else s1

/-- Error message thrown when a refresh request fails. -/
def refreshFailedMsg : String := "Token refresh failed"

/-- Error message thrown when no refresh token is available. -/
def noRefreshTokenMsg : String := "No refresh token available"

/-- `refreshAccessToken` at clock reading `now`, with `outcome` the refresh
response (`none` = non-2xx, which the service surfaces as a thrown error).
Returns the store state together with the number of refresh network requests
issued.  Without a truthy refresh token it throws before any request; on a
failed request the catch runs `logout(false)` and rethrows. -/
def refreshAccessToken (outcome : Option TokenSet) (now : Int) (s : StoreState) :
    (Except String String) × StoreState × Nat :=
  if jsTruthyStr s.refreshToken then
    match outcome with
    | some newTokens =>
        (.ok (newTokens.access_token.getD ""), setTokens now newTokens s, 1)
    | none => (.error refreshFailedMsg, logout false s, 1)
  else (.error noRefreshTokenMsg, s, 0)

/-- Firing of the automatic-refresh timeout armed by `setupTokenRefresh`, at
instant `t`: runs only if a timeout is pending for exactly `t`.  The callback
awaits `refreshAccessToken` and re-arms via `setupTokenRefresh` on success;
a thrown error is caught and only logged.  Returns the store state and the
number of refresh network requests issued. -/
def refreshTimerFire (outcome : Option TokenSet) (t : Int) (s : StoreState) :
    StoreState × Nat :=
  if s.refreshTimer = some t then
    let s0 := { s with refreshTimer := none }
    match refreshAccessToken outcome t s0 with
    | (.ok _, s1, n) => (setupTokenRefresh t s1, n)
    | (.error _, s1, n) => (s1, n)
  else (s, 0)

/-! ## Direct Keycloak service (`src/unnamed/part_001`): callback processing

`handleOAuthCallback` of the direct (no backend proxy) `CSPSafeKeycloakService`
variant, lines 206-314, together with the browser state it touches. -/

/-- The visible browser URL: path plus query parameters in order. -/
structure Url where
  path : String
  params : List (String × String)
  deriving DecidableEq, Repr

/-- `URLSearchParams.get(k)`: the first value of `k`, or `null`. -/
def Url.get (u : Url) (k : String) : Option String :=
  (u.params.find? (fun p => p.1 == k)).map (·.2)

/-- `URLSearchParams.has(k)`. -/
def Url.has (u : Url) (k : String) : Bool :=
  (u.get k).isSome

/-- The session-scoped storage slots used during the redirect round trip. -/
structure SessionStore where
  oauth_state : Option String
  code_verifier : Option String
  redirect_uri : Option String
  keycloak_state : Option String
  keycloak_code_verifier : Option String
  keycloak_redirect_uri : Option String
  deriving DecidableEq, Repr

/-- Session storage with every slot removed. -/
def emptySession : SessionStore := ⟨none, none, none, none, none, none⟩

/-- Combined state of the `part_001` service instance and the browser:
service fields (`tokens`, `userInfo`, the two processing flags), the durable
`localStorage` slots `keycloak_tokens` / `keycloak_token_expiry`, the session
storage and the URL.  `exchangeCount` counts the token-exchange HTTP requests
issued. -/
structure SvcWorld where
  url : Url
  session : SessionStore
  kcTokens : Option TokenSet
  kcTokenExpiry : Option Int
  tokens : Option TokenSet
  userInfo : Option IdPayload
  gcp : Bool
  processingCb : Bool
  exchangeCount : Nat
  deriving DecidableEq, Repr

/-- `clearTokens` (lines 319-335): nulls the token fields and user info,
removes the two durable keys and all six session keys.  It does not touch
the processing flags. -/
def clearTokens (w : SvcWorld) : SvcWorld :=
  { w with tokens := none, userInfo := none, kcTokens := none,
           kcTokenExpiry := none, session := emptySession }

/-- The catch block of `handleOAuthCallback` (lines 306-313): clear tokens,
reset both processing flags, rethrow the error.  The URL is left untouched. -/
def cbFail (w : SvcWorld) (msg : String) : (Except String Bool) × SvcWorld :=
  (.error msg, { clearTokens w with gcp := false, processingCb := false })

/-- The tail of the success path (lines 286-305): remove the six session
keys, clean the URL with a non-navigating `history.replaceState` (the query
string is dropped), reset both processing flags, return `true`. -/
def cbSuccess (w : SvcWorld) : (Except String Bool) × SvcWorld :=
  (.ok true,
   { w with session := emptySession, url := { w.url with params := [] },
            gcp := false, processingCb := false })

/-- Query parameter key for the authorization code. -/
def codeKey : String := "code"

/-- Query parameter key for the OAuth state. -/
def stateKey : String := "state"

/-- Query parameter key for an OAuth error response. -/
def errorKey : String := "error"

/-- Error message prefix for an `error` query parameter (the source throws
`new Error('OAuth error: ' + error)`). -/
def oauthErrMsgHead : String := "OAuth error: "

/-- Error message for a missing authorization code. -/
def noCodeMsg : String := "No authorization code received"

/-- Error message thrown on a `state` mismatch (line 237). -/
def invalidStateMsg : String := "Invalid state parameter"

/-- Error message thrown when the token-exchange response is non-2xx. -/
def exchangeFailedMsg : String := "Token exchange failed"

/-- Error message for an ID token whose payload cannot be parsed. -/
def idParseFailMsg : String := "Failed to parse ID token"

/-- `isOAuthCallback` (lines 28-35): the URL carries both a `code` and a
`state` query parameter. -/
def isOAuthCallback (u : Url) : Bool :=
  u.has codeKey && u.has stateKey

/-- `handleOAuthCallback` of `src/unnamed/part_001` (lines 206-314) at clock
reading `now`.  `exchange` is the token endpoint's response to the exchange
request (`none` = non-2xx).  Returns the result (`.ok` return value or
`.error` with the thrown message) together with the updated world; thrown
errors pass through the catch block `cbFail`. -/
def handleOAuthCallback (exchange : Option TokenSet) (now : Int) (w : SvcWorld) :
    (Except String Bool) × SvcWorld :=
  if ¬ isOAuthCallback w.url then (.ok false, w)
  else
    let code := (w.url.get codeKey).getD ""
    let st := w.url.get stateKey
    let errp := (w.url.get errorKey).getD ""
    if errp ≠ "" then cbFail w (oauthErrMsgHead ++ errp)
    else if code = "" then cbFail w noCodeMsg
    else
      -- storedState = sessionStorage.getItem('oauth_state') ||
      --               sessionStorage.getItem('keycloak_state');
      -- the stored verifier and redirect URI are read the same way and are
      -- only passed on in the exchange request body.
      let storedState := jsOrStr w.session.oauth_state w.session.keycloak_state
      if st ≠ storedState then cbFail w invalidStateMsg
      else
        -- the fetch of the token endpoint is issued here
        let w1 := { w with exchangeCount := w.exchangeCount + 1 }
        match exchange with
        | none => cbFail w1 exchangeFailedMsg
        | some tks =>
          let w2 := { w1 with tokens := some tks, kcTokens := some tks,
                              kcTokenExpiry :=
                                match tks.expires_in with
                                | some n =>
                                  if n = 0 then w1.kcTokenExpiry
                                  else some (now + n * 1000)
                                | none => w1.kcTokenExpiry }
          match tks.id_token with
          | some jwt =>
            match jwt.payload with
            | none => cbFail w2 idParseFailMsg
            | some p => cbSuccess { w2 with userInfo := some p }
          | none => cbSuccess w2

/-- The callback branch of `initialize` in `src/src/stores/authStore.js`
(lines 273-347) paired with the `part_001` service: the service processes
the callback inside `init()`; on a thrown error the store's catch runs
`clearAuthState` (leaving it unauthenticated); on success the store copies
the service tokens via `setTokens`, overwrites `user` with the decoded
payload when present, and sets `isAuthenticated`. -/
def storeInitCallback (exchange : Option TokenSet) (now : Int)
    (st : StoreState) (w : SvcWorld) : StoreState × SvcWorld :=
  match handleOAuthCallback exchange now w with
  | (.error _, w2) => (clearAuthState st, w2)
  | (.ok true, w2) =>
    match w2.tokens with
    | some tks =>
      let st1 := setTokens now tks st
      let st2 :=
        match w2.userInfo with
        | some p => { st1 with user := some (.claims p) }
        | none => st1
      ({ st2 with isAuthenticated := true }, w2)
    | none => (st, w2)
  | (.ok false, w2) =>
    -- unreachable under the callback branch: `handleOAuthCallback` returns
    -- `false` only when the URL is not a callback URL, which the branch
    -- guard excludes; the store would fall through to the persisted-token
    -- path.
    (st, w2)

/-! ## Proxy service variant (`src/src/services/csp-safe-keycloak.js`):
roles and the interval-based automatic refresh -/

/-- Result of decoding the `exp` claim of the stored access token:
the token may be unparseable (`JSON.parse(atob(...))` throws), parsed
without an `exp` claim, or parsed with `exp` (in epoch seconds). -/
inductive ExpInfo where
  | unparseable
  | noExp
  | expAt (sec : Int)
  deriving DecidableEq, Repr

/-- Decoded payload of the stored access token, as read by `getToken` /
`getUserRoles`: `none` when parsing throws. -/
structure AccessPayload where
  realm_access : Option RealmAccess
  deriving DecidableEq, Repr

/-- The token set held by the proxy-variant service, abstracted to the
fields its refresh/roles logic reads: presence and decoded payload of the
access token, its `exp` information, and the refresh token. -/
structure SvcTokens where
  access : Option AccessPayload
  accessExp : ExpInfo
  refresh : Option String
  deriving DecidableEq, Repr

/-- State of the proxy-variant service: the in-memory token set, whether
the durable `keycloak_tokens` slot is populated, and whether the 30-second
refresh interval is armed.  `refreshCalls` counts refresh HTTP requests. -/
structure IntervalSvc where
  tokens : Option SvcTokens
  stored : Bool
  intervalArmed : Bool
  refreshCalls : Nat
  deriving DecidableEq, Repr

/-- `getToken` (lines 321-329): the decoded access-token payload, `null`
without a token or when parsing throws. -/
def getToken (s : IntervalSvc) : Option AccessPayload :=
  s.tokens.bind (·.access)

/-- `getUserRoles` (lines 334-337): `token?.realm_access?.roles || []`. -/
def getUserRoles (s : IntervalSvc) : List String :=
  (((getToken s).bind (·.realm_access)).bind (·.roles)).getD []

/-- `isTokenExpired` of the proxy-variant service (lines 299-309): `true`
without an access token or when decoding throws; with a decoded payload,
`payload.exp <= now/1000 + 30`.  An absent `exp` claim makes the JS
comparison `undefined <= n` evaluate to `false`. -/
def svcIsTokenExpired (nowMs : Int) (s : IntervalSvc) : Bool :=
  match s.tokens with
  | none => true
  | some tk =>
    match tk.access with
    | none => true
    | some _ =>
      match tk.accessExp with
      | .unparseable => true
      | .noExp => false
      | .expAt e => e ≤ nowMs / 1000 + 30

/-- `updateToken` (lines 342-373) with `outcome` the refresh response:
throws before any request without a refresh token; on a non-2xx response it
clears the stored tokens and throws; on success it replaces the token set
and stores it.  Refresh requests issued are counted in `refreshCalls`;
the returned Boolean records whether the call threw. -/
def updateToken (outcome : Option SvcTokens) (s : IntervalSvc) :
    IntervalSvc × Bool :=
  match s.tokens with
  | none => (s, true)
  | some tk =>
    if jsTruthyStr tk.refresh then
      match outcome with
      | none =>
        ({ s with stored := false, tokens := none,
                  refreshCalls := s.refreshCalls + 1 }, true)
      | some nt =>
        ({ s with tokens := some nt, stored := true,
                  refreshCalls := s.refreshCalls + 1 }, false)
    else (s, true)

/-- One tick of the 30-second interval armed by `setupTokenRefresh`
(lines 394-411): when the token is expired, `updateToken` runs; a thrown
error is caught, the stored tokens are cleared and the token set nulled.
The interval itself is **not** cleared by the tick (only `logout` or a
re-arm clears it). -/
def intervalTick (outcome : Option SvcTokens) (nowMs : Int) (s : IntervalSvc) :
    IntervalSvc :=
  if s.intervalArmed then
    if svcIsTokenExpired nowMs s then
      match updateToken outcome s with
      | (s1, true) => { s1 with tokens := none, stored := false }
      | (s1, false) => s1
    else s
  else s

/-! ## Authorization URL construction (`login` / `loginWithGoogle`)

`login` (`src/services/csp-safe-keycloak.js` lines 118-147) and
`loginWithGoogle` (`src/unnamed/part_001` lines 170-201) build the
authorization redirect URL from `new URLSearchParams({...})` where the
fixed entries are listed first and the caller's `options` object is spread
last (`...options`), so an `options` key overrides a fixed entry of the
same name. -/

/-- Keycloak client configuration. -/
structure KcConfig where
  url : String
  realm : String
  clientId : String
  deriving DecidableEq, Repr

/-- The fixed entries of the `URLSearchParams` object built by `login`. -/
def loginBaseParams (cfg : KcConfig) (st codeChallenge redirectUri : String) :
    List (String × String) :=
  [("client_id", cfg.clientId),
   ("redirect_uri", redirectUri),
   ("response_type", "code"),
   ("scope", "openid profile email"),
   ("state", st),
   ("code_challenge", codeChallenge),
   ("code_challenge_method", "S256")]

/-- The fixed entries of the `URLSearchParams` object built by
`loginWithGoogle`: the `login` entries plus the Google hint and prompt. -/
def googleBaseParams (cfg : KcConfig) (st codeChallenge redirectUri : String) :
    List (String × String) :=
  loginBaseParams cfg st codeChallenge redirectUri ++
    [("kc_idp_hint", "google"), ("prompt", "login")]

/-- Value of query parameter `k` in the authorization URL built by `login`
with caller options `opts` (spread last, overriding). -/
def loginParamValue (cfg : KcConfig) (st codeChallenge redirectUri : String)
    (opts : List (String × String)) (k : String) : Option String :=
  objGet (loginBaseParams cfg st codeChallenge redirectUri) opts k

/-- Value of query parameter `k` in the authorization URL built by
`loginWithGoogle` with caller options `opts`. -/
def googleParamValue (cfg : KcConfig) (st codeChallenge redirectUri : String)
    (opts : List (String × String)) (k : String) : Option String :=
  objGet (googleBaseParams cfg st codeChallenge redirectUri) opts k

/-! ## Concurrent `initialize()` calls: event-loop trace model

`initialize` of `src/src/stores/authStore.js` (lines 273-347) run against
the `part_001` service.  JavaScript is single threaded: the code between
two `await` suspension points runs atomically, and concurrency is the
interleaving of those atomic blocks across the two calls.  Each call is
modelled as a small program over the shared state, split at its `await`
points; consecutive blocks that do not touch the shared fields tracked here
are merged (the merged system has the same tracked-state traces).

The atomic blocks of one `initialize()` call on the shared store:
* `entry` — the synchronous prefix up to `await this.loadConfig()` inside
  the service's `init()`: the store guard
  `if (globalStoreInitialized || isInitialized || isInitializing) return`,
  then `isInitializing = true; globalStoreInitialized = true`, service
  construction and the `init()` prologue.  A call that fails the guard
  returns immediately.
* `afterConfig` — resumption after `loadConfig()`: the service guard
  `isOAuthCallback() && !globalCallbackProcessing && !isProcessingCallback`;
  when it passes, `globalCallbackProcessing = true` and
  `handleOAuthCallback` runs its synchronous prologue up to the exchange
  `fetch` (the request is issued here); a state-parameter mismatch throws
  inside this same block (the catch resets the flag synchronously).
* `sFetch` — the exchange response settles (2xx or not).
* `sJson` — success: the response body is parsed, tokens persisted, session
  keys removed, the URL cleaned, the processing flags reset.
* `sStoreResume` / `sSetTokens` — the store's continuation: `setTokens`,
  `isAuthenticated = true`, `isInitialized = true`, `isInitializing = false`
  (the `finally`).
* `sFailText` — failure: the error body is read, the callback catch resets
  `globalCallbackProcessing`, the `init()` promise rejects.
* `sStoreCatch` — the store's catch: `clearAuthState`,
  `globalStoreInitialized = false`, then the `finally`.
* `sStoreNoCb` — the non-processing branch (no callback URL, or the
  service guard saw the flag set): persisted-token checks, then the
  `finally`.  None of its suspensions touch the tracked shared state, so it
  is one block here. -/

/-- Program counter of one `initialize()` call, at its `await` boundaries. -/
inductive InitPc where
  | entry
  | afterConfig
  | sFetch
  | sJson
  | sStoreResume
  | sSetTokens
  | sFailText
  | sStoreCatch
  | sStoreNoCb
  | done
  deriving DecidableEq, Repr

/-- Shared state read and written by concurrent `initialize()` calls:
the module-level flags, the store refs, whether the URL still carries the
callback parameters, and the number of token-exchange requests issued. -/
structure InitShared where
  gsi : Bool
  initializing : Bool
  initializedFlag : Bool
  gcp : Bool
  urlCallback : Bool
  exchanges : Nat
  deriving DecidableEq, Repr

/-- One atomic block of an `initialize()` call.  `ok` is the outcome of the
call's exchange request (2xx or not); `stOk` is whether the callback's
`state` parameter matches the stored one. -/
def initStep (ok stOk : Bool) (s : InitShared) (pc : InitPc) : InitShared × InitPc :=
  match pc with
  | .entry =>
    if s.gsi || s.initializedFlag || s.initializing then (s, .done)
    else ({ s with initializing := true, gsi := true }, .afterConfig)
  | .afterConfig =>
    if s.urlCallback && !s.gcp then
      if stOk then
        ({ s with gcp := true, exchanges := s.exchanges + 1 }, .sFetch)
      else
        -- state mismatch: the flag is set and reset within this block
        (s, .sStoreCatch)
    else (s, .sStoreNoCb)
  | .sFetch => if ok then (s, .sJson) else (s, .sFailText)
  | .sJson => ({ s with urlCallback := false, gcp := false }, .sStoreResume)
  | .sStoreResume => (s, .sSetTokens)
  | .sSetTokens => ({ s with initializedFlag := true, initializing := false }, .done)
  | .sFailText => ({ s with gcp := false }, .sStoreCatch)
  | .sStoreCatch =>
    ({ s with gsi := false, initializing := false, initializedFlag := true }, .done)
  | .sStoreNoCb => ({ s with initializedFlag := true, initializing := false }, .done)
  | .done => (s, .done)

/-- Configuration of the two-call system: shared state plus each call's
program counter.  Call `a` is the first `initialize()` invocation, call `b`
the second. -/
structure InitCfg where
  sh : InitShared
  pcA : InitPc
  pcB : InitPc
  deriving DecidableEq, Repr

/-- Run one scheduled atomic block: `true` steps call `a`, `false` steps
call `b` (a finished call's step is a no-op). -/
def schedStep (okA stA okB stB : Bool) (c : InitCfg) (b : Bool) : InitCfg :=
  if b then
    let r := initStep okA stA c.sh c.pcA
    ⟨r.1, r.2, c.pcB⟩
  else
    let r := initStep okB stB c.sh c.pcB
    ⟨r.1, c.pcA, r.2⟩

/-- Run a whole schedule (list of scheduling choices). -/
def schedRun (okA stA okB stB : Bool) (c : InitCfg) (sched : List Bool) : InitCfg :=
  sched.foldl (schedStep okA stA okB stB) c

/-- Initial shared state when the current URL is an OAuth callback URL and
nothing has run yet. -/
def initShared0 : InitShared := ⟨false, false, false, false, true, 0⟩

/-- Initial configuration: both calls at their invocation point. -/
def initCfg0 : InitCfg := ⟨initShared0, .entry, .entry⟩

/-! ## Invariants, predicates and concrete states used in the theorems -/

/-- Exchange accounting for one running call: at most one exchange request
issued so far, and none before the call passes its callback-guard block. -/
def countInv (sh : InitShared) (pc : InitPc) : Prop :=
  sh.exchanges ≤ 1 ∧ ((pc = .entry ∨ pc = .afterConfig) → sh.exchanges = 0)

/-- Invariant while only the first call has been scheduled: the second call
is still at its invocation point, the first has passed its entry block, and
the `isInitializing` flag stays set until the first call's final block. -/
def phase1Inv (c : InitCfg) : Prop :=
  c.pcB = .entry ∧ c.pcA ≠ .entry ∧
  (c.pcA ≠ .done → c.sh.initializing = true) ∧
  countInv c.sh c.pcA

/-- Invariant once the second call has been turned away by the guard: it is
finished, and the exchange count can never pass 1. -/
def phase2Inv (c : InitCfg) : Prop :=
  c.pcB = .done ∧ countInv c.sh c.pcA

/-- A store state with every token, user and expiry slot empty, both
in memory and in the durable store, unauthenticated and with no pending
refresh timeout. -/
def loggedOutClean (s : StoreState) : Prop :=
  s.accessToken = none ∧ s.refreshToken = none ∧ s.idToken = none ∧
  s.user = none ∧ s.tokenExpiresAt = none ∧ s.isAuthenticated = false ∧
  s.refreshTimer = none ∧ s.auth_tokens = none ∧ s.auth_user = none ∧
  s.auth_expires_at = none

/-- A sample token-endpoint response with `expires_in = 300`. -/
def sampleTokens : TokenSet := ⟨some ("a"), some ("r"), none, some 300⟩

/-- A store state in the `Authenticated` stage, with a pending refresh
timeout, used to instantiate the logout and refresh theorems. -/
def authedStore : StoreState :=
  { emptyStore with accessToken := some ("a"), refreshToken := some ("r"),
                    isAuthenticated := true, tokenExpiresAt := some 300000,
                    refreshTimer := some 180000,
                    auth_tokens := some ⟨some ("a"), some ("r"), none⟩,
                    auth_user := none, auth_expires_at := some 300000 }

/-- A callback world whose URL carries `code`, a mismatching `state` and an
`error` parameter, while the session holds a different state. -/
def mismatchErrWorld : SvcWorld :=
  ⟨⟨"/", [("code", "abc"), ("state", "X"), ("error", "denied")]⟩,
   { emptySession with keycloak_state := some ("Y") },
   none, none, none, none, false, false, 0⟩

/-- A callback world whose URL carries `code` and a mismatching `state`
(no `error` parameter). -/
def mismatchWorld : SvcWorld :=
  ⟨⟨"/", [("code", "abc"), ("state", "X")]⟩,
   { emptySession with keycloak_state := some ("Y") },
   none, none, none, none, false, false, 0⟩

/-- A callback world with a matching `state` and stored PKCE data, ready
for a token exchange. -/
def matchedWorld : SvcWorld :=
  ⟨⟨"/", [("code", "abc"), ("state", "X")]⟩,
   { emptySession with keycloak_state := some ("X"),
                       keycloak_code_verifier := some ("v"),
                       keycloak_redirect_uri := some ("u") },
   none, none, none, none, true, true, 0⟩

/-- Proxy-variant service state holding an expired access token and a
refresh token, with the 30-second refresh interval armed. -/
def expiredIntervalSvc : IntervalSvc :=
  ⟨some ⟨some ⟨none⟩, .expAt 0, some ("r")⟩, true, true, 0⟩

/-- Proxy-variant service state whose decoded access token carries no
`realm_access` claim. -/
def noRolesSvc : IntervalSvc :=
  ⟨some ⟨some ⟨none⟩, .noExp, some ("r")⟩, true, false, 0⟩

/-- The repository's Keycloak configuration. -/
def sampleCfg : KcConfig := ⟨"https://auth.utribe.app", "utribe", "giftportal"⟩

/-! ## Helper lemmas -/

/-- Persisting auth data only writes the durable slots. -/
theorem persistAuthData_tokenExpiresAt (s : StoreState) :
    (persistAuthData s).tokenExpiresAt = s.tokenExpiresAt := by
  unfold persistAuthData persistUserData
  dsimp only
  split <;> split <;> split <;> rfl

/-- Persisting auth data does not arm or cancel the refresh timeout. -/
theorem persistAuthData_refreshTimer (s : StoreState) :
    (persistAuthData s).refreshTimer = s.refreshTimer := by
  unfold persistAuthData persistUserData
  dsimp only
  split <;> split <;> split <;> rfl

/-- The expiry written by `setTokens`: `now + expires_in * 1000` when
`expires_in` is truthy, otherwise unchanged. -/
theorem setTokens_tokenExpiresAt (now : Int) (tks : TokenSet) (s : StoreState) :
    (setTokens now tks s).tokenExpiresAt =
      match tks.expires_in with
      | some n => if n = 0 then s.tokenExpiresAt else some (now + n * 1000)
      | none => s.tokenExpiresAt := by
  unfold setTokens
  dsimp only
  rw [persistAuthData_tokenExpiresAt]
  repeat' split
  all_goals rfl

/-- When the expiry is set, nonzero, and far enough in the future,
`setupTokenRefresh` arms the timeout at `expiry - 120000` ms. -/
theorem setupTokenRefresh_arm (now e : Int) (s : StoreState)
    (hse : s.tokenExpiresAt = some e) (h0 : e ≠ 0)
    (hpos : e - now - 2 * 60 * 1000 > 0) :
    (setupTokenRefresh now s).refreshTimer = some (now + (e - now - 2 * 60 * 1000)) := by
  unfold setupTokenRefresh
  dsimp only
  rw [hse]
  simp only [jsFalsyNum, Option.getD_some]
  rw [if_neg (by simpa using h0), if_pos hpos]

/-! ## Claim theorems -/

/-- C9: whenever no token expiry is recorded (`tokenExpiresAt` is `null`),
`isTokenExpired` returns `true`, so a session without expiry information is
never treated as valid. -/
theorem c9_no_expiry_expired (now : Int) (s : StoreState)
    (h : s.tokenExpiresAt = none) : isTokenExpired now s = true := by
  simp [isTokenExpired, jsFalsyNum, h]

/-- Witness for C9 at the empty store. -/
theorem c9_witness : isTokenExpired 0 emptyStore = true :=
  c9_no_expiry_expired 0 emptyStore rfl

/-- C10: `hasRole` is total and returns `false` when the user object is
`null` or carries no `roles` array, and `getUserRoles` returns the empty
list when the decoded access token has no `realm_access.roles` field. -/
theorem c10_missing_roles_safe (s : StoreState) (role : String) (svc : IntervalSvc) :
    (s.user = none → hasRole s role = false) ∧
    (∀ u, s.user = some u → u.rolesProp = none → hasRole s role = false) ∧
    (((getToken svc).bind (fun p => p.realm_access)).bind (fun ra => ra.roles) = none →
      getUserRoles svc = []) := by
  refine ⟨fun h => ?_, fun u hu hr => ?_, fun h => ?_⟩
  · simp [hasRole, h]
  · simp [hasRole, hu, hr]
  · simp [getUserRoles, h]

/-- Witness for C10: the empty store has no user, and `noRolesSvc` decodes
to a payload without `realm_access`. -/
theorem c10_witness :
    hasRole emptyStore ("admin") = false ∧ getUserRoles noRolesSvc = [] :=
  ⟨(c10_missing_roles_safe emptyStore ("admin") noRolesSvc).1 rfl,
   (c10_missing_roles_safe emptyStore ("admin") noRolesSvc).2.2 rfl⟩

/-- C7: after any `Authenticated` state, `logout(false)` leaves the durable
keys `auth_tokens`, `auth_user` and `auth_expires_at` absent, nulls the
in-memory session state with `isAuthenticated` false, and cancels the
pending refresh timeout, so no refresh network request fires at the
originally scheduled instant (or ever, until re-armed). -/
theorem c7_logout_clears (s : StoreState) (_h : s.isAuthenticated = true) :
    loggedOutClean (logout false s) ∧
    ∀ outcome t, (refreshTimerFire outcome t (logout false s)).2 = 0 := by
  constructor
  · simp [loggedOutClean, logout, clearAuthState]
  · intro outcome t
    simp [refreshTimerFire, logout, clearAuthState]

/-- Witness for C7 at a concrete authenticated store with a refresh timeout
scheduled for instant 180000. -/
theorem c7_witness :
    loggedOutClean (logout false authedStore) ∧
    (refreshTimerFire (some sampleTokens) 180000 (logout false authedStore)).2 = 0 :=
  ⟨(c7_logout_clears authedStore rfl).1,
   (c7_logout_clears authedStore rfl).2 (some sampleTokens) 180000⟩

/-- C4 counterexample: accepting `expires_in = 300` at `T = 0` stores the
expiry `300000`, but `isTokenExpiringSoon` is already `true` at time `T = 0`
itself — its lead time is hard-coded to 300000 ms — so it does **not** first
become true at `T + 180000`. -/
theorem c4_counterexample :
    (setTokens 0 sampleTokens emptyStore).tokenExpiresAt = some 300000 ∧
    isTokenExpiringSoon 0 (setTokens 0 sampleTokens emptyStore) = true ∧
    (0 : Int) < 180000 := by decide

/-- C4 (amended): a `TokenSet` with `expires_in = 300` accepted by
`setTokens` at a clock reading `T ≥ 0` stores the expiry `T + 300000`;
the predicate `isTokenExpiringSoon`, whose lead time is hard-coded to
300000 ms, is true from `T` onwards (hence already before `T + 180000`);
the 120000 ms lead belongs to `setupTokenRefresh`, whose timeout is armed to
fire at `T + 180000`. -/
theorem c4_expiry_and_refresh_lead (T : Int) (tks : TokenSet) (s : StoreState)
    (hT : 0 ≤ T) (h : tks.expires_in = some 300) :
    (setTokens T tks s).tokenExpiresAt = some (T + 300000) ∧
    (∀ t, T ≤ t → isTokenExpiringSoon t (setTokens T tks s) = true) ∧
    (setupTokenRefresh T (setTokens T tks s)).refreshTimer = some (T + 180000) := by
  have hexp : (setTokens T tks s).tokenExpiresAt = some (T + 300000) := by
    rw [setTokens_tokenExpiresAt, h]
    norm_num
  refine ⟨hexp, fun t ht => ?_, ?_⟩
  · simp only [isTokenExpiringSoon, hexp, Option.getD_some]
    split
    · next hcond => exfalso; simp only [jsFalsyNum, decide_eq_true_eq] at hcond; omega
    · simp only [decide_eq_true_eq]; omega
  · rw [setupTokenRefresh_arm T (T + 300000) (setTokens T tks s) hexp (by omega) (by omega)]
    congr 1
    omega

/-- Witness for C4 (amended) at `T = 1000`. -/
theorem c4_witness :
    (setTokens 1000 sampleTokens emptyStore).tokenExpiresAt = some 301000 ∧
    isTokenExpiringSoon 2000 (setTokens 1000 sampleTokens emptyStore) = true ∧
    (setupTokenRefresh 1000 (setTokens 1000 sampleTokens emptyStore)).refreshTimer =
      some 181000 :=
  ⟨(c4_expiry_and_refresh_lead 1000 sampleTokens emptyStore (by decide) rfl).1,
   (c4_expiry_and_refresh_lead 1000 sampleTokens emptyStore (by decide) rfl).2.1 2000
     (by decide),
   (c4_expiry_and_refresh_lead 1000 sampleTokens emptyStore (by decide) rfl).2.2⟩

/-- C6 counterexample: in the interval-based service variant
(`src/src/services/csp-safe-keycloak.js`), a tick whose refresh request
fails (non-2xx) makes one refresh request and clears the token set and
durable store, yet the 30-second interval remains armed — the claim's
"the scheduled refresh timer is cancelled" fails there. -/
theorem c6_counterexample :
    (intervalTick none 10000 expiredIntervalSvc).refreshCalls = 1 ∧
    (intervalTick none 10000 expiredIntervalSvc).tokens = none ∧
    (intervalTick none 10000 expiredIntervalSvc).stored = false ∧
    (intervalTick none 10000 expiredIntervalSvc).intervalArmed = true := by decide

/-- C6 (amended): on a failed automatic background refresh (non-2xx), the
timeout-based auth store makes exactly one refresh request, ends
unauthenticated with the durable store cleared and the timer cancelled, and
no later timer firing makes another request; the interval-based service
variant likewise makes one request and clears its token set and durable
slot, but its 30-second interval stays armed (only logout or a re-arm
clears it), while its subsequent ticks issue no further refresh request. -/
theorem c6_refresh_failure_cleanup (s : StoreState) (t : Int) (r : String)
    (h1 : s.refreshTimer = some t) (h2 : s.refreshToken = some r) (h3 : r ≠ "")
    (svc : IntervalSvc) (nowMs : Int) (tk : SvcTokens)
    (h4 : svc.intervalArmed = true) (h5 : svcIsTokenExpired nowMs svc = true)
    (h6 : svc.tokens = some tk) (h7 : jsTruthyStr tk.refresh = true) :
    (refreshTimerFire none t s).2 = 1 ∧
    loggedOutClean (refreshTimerFire none t s).1 ∧
    (∀ o2 t2, (refreshTimerFire o2 t2 (refreshTimerFire none t s).1).2 = 0) ∧
    (intervalTick none nowMs svc).refreshCalls = svc.refreshCalls + 1 ∧
    (intervalTick none nowMs svc).tokens = none ∧
    (intervalTick none nowMs svc).stored = false ∧
    (intervalTick none nowMs svc).intervalArmed = true ∧
    (∀ o2 n2, (intervalTick o2 n2 (intervalTick none nowMs svc)).refreshCalls =
      (intervalTick none nowMs svc).refreshCalls) := by
  have htr : jsTruthyStr s.refreshToken = true := by simp [jsTruthyStr, h2, h3]
  have hfire : refreshTimerFire none t s =
      (logout false { s with refreshTimer := none }, 1) := by
    unfold refreshTimerFire refreshAccessToken
    rw [if_pos h1]
    dsimp only
    rw [htr]
    rfl
  have htick : intervalTick none nowMs svc =
      { svc with tokens := none, stored := false,
                 refreshCalls := svc.refreshCalls + 1 } := by
    unfold intervalTick updateToken
    rw [if_pos h4, if_pos h5, h6]
    dsimp only
    rw [h7]
    rfl
  refine ⟨?_, ?_, ?_, ?_, ?_, ?_, ?_, ?_⟩
  · rw [hfire]
  · rw [hfire]
    simp [loggedOutClean, logout, clearAuthState]
  · intro o2 t2
    rw [hfire]
    simp [refreshTimerFire, logout, clearAuthState]
  · rw [htick]
  · rw [htick]
  · rw [htick]
  · rw [htick]; exact h4
  · intro o2 n2
    rw [htick]
    unfold intervalTick updateToken
    dsimp only
    rw [if_pos h4]
    simp [svcIsTokenExpired]

/-- Witness for C6 (amended) at a concrete authenticated store with an
armed timer and the concrete expired interval-service state. -/
theorem c6_witness :
    (refreshTimerFire none 180000 authedStore).2 = 1 ∧
    loggedOutClean (refreshTimerFire none 180000 authedStore).1 ∧
    (refreshTimerFire none 400000 (refreshTimerFire none 180000 authedStore).1).2 = 0 ∧
    (intervalTick none 10000 expiredIntervalSvc).refreshCalls =
      expiredIntervalSvc.refreshCalls + 1 ∧
    (intervalTick none 40000 (intervalTick none 10000 expiredIntervalSvc)).refreshCalls =
      (intervalTick none 10000 expiredIntervalSvc).refreshCalls := by
  have h := c6_refresh_failure_cleanup authedStore 180000 ("r") rfl rfl (by decide)
    expiredIntervalSvc 10000 ⟨some ⟨none⟩, .expAt 0, some ("r")⟩ rfl (by decide) rfl
    (by decide)
  exact ⟨h.1, h.2.1, h.2.2.1 none 400000, h.2.2.2.1, h.2.2.2.2.2.2.2 none 40000⟩

/-- C8 counterexample: the caller's `options` object is spread after the
fixed entries, so `login(cfg, {response_type: 'token'})` builds an
authorization URL whose `response_type` is `token`, not `code`. -/
theorem c8_counterexample :
    loginParamValue sampleCfg ("st") ("ch") ("uri") [("response_type", "token")]
      ("response_type") = some ("token") ∧
    loginParamValue sampleCfg ("st") ("ch") ("uri") [("response_type", "token")]
      ("response_type") ≠ some ("code") := by decide

/-- C8 (amended): for every configuration and every `options` argument that
does not itself carry one of the reserved keys, the authorization URL built
by `login` and by `loginWithGoogle` contains `response_type=code`,
`scope=openid profile email` and `code_challenge_method=S256`; an `options`
key equal to a reserved key overrides it, since `...options` is spread
last. -/
theorem c8_fixed_auth_params (cfg : KcConfig) (st ch uri : String)
    (opts : List (String × String))
    (h : ∀ p ∈ opts, p.1 ≠ "response_type" ∧ p.1 ≠ "scope" ∧
      p.1 ≠ "code_challenge_method") :
    loginParamValue cfg st ch uri opts ("response_type") = some ("code") ∧
    loginParamValue cfg st ch uri opts ("scope") = some ("openid profile email") ∧
    loginParamValue cfg st ch uri opts ("code_challenge_method") = some ("S256") ∧
    googleParamValue cfg st ch uri opts ("response_type") = some ("code") ∧
    googleParamValue cfg st ch uri opts ("scope") = some ("openid profile email") ∧
    googleParamValue cfg st ch uri opts ("code_challenge_method") = some ("S256") := by
  have hfind : ∀ k : String,
      (k = "response_type" ∨ k = "scope" ∨ k = "code_challenge_method") →
      opts.find? (fun p => p.1 == k) = none := by
    intro k hk
    rw [List.find?_eq_none]
    intro p hp
    rcases h p hp with ⟨e1, e2, e3⟩
    rcases hk with rfl | rfl | rfl <;> simp [e1, e2, e3]
  refine ⟨?_, ?_, ?_, ?_, ?_, ?_⟩ <;>
    simp only [loginParamValue, googleParamValue, objGet,
      hfind _ (Or.inl rfl), hfind _ (Or.inr (Or.inl rfl)),
      hfind _ (Or.inr (Or.inr rfl)), Option.map_none] <;>
    rfl

/-- Witness for C8 (amended) at the repository configuration with a
non-reserved extra option. -/
theorem c8_witness :
    loginParamValue sampleCfg ("st") ("ch") ("uri") [("prompt", "none")]
      ("response_type") = some ("code") ∧
    googleParamValue sampleCfg ("st") ("ch") ("uri") [("prompt", "none")]
      ("code_challenge_method") = some ("S256") :=
  ⟨(c8_fixed_auth_params sampleCfg ("st") ("ch") ("uri") [("prompt", "none")]
      (by decide)).1,
   (c8_fixed_auth_params sampleCfg ("st") ("ch") ("uri") [("prompt", "none")]
      (by decide)).2.2.2.2.2⟩

/-- On a callback URL whose `state` differs from the stored one, every path
of `handleOAuthCallback` throws before the exchange request: the result is
the catch block applied to the unchanged world, and the thrown error is the
state-mismatch error whenever the URL carries no (truthy) `error` parameter
and a non-empty code. -/
theorem hoc_mismatch_shape (exchange : Option TokenSet) (now : Int) (w : SvcWorld)
    (hcb : isOAuthCallback w.url = true)
    (hmm : w.url.get stateKey ≠ jsOrStr w.session.oauth_state w.session.keycloak_state) :
    ∃ msg, handleOAuthCallback exchange now w = cbFail w msg ∧
      ((w.url.get errorKey).getD "" = "" → (w.url.get codeKey).getD "" ≠ "" →
        msg = invalidStateMsg) := by
  unfold handleOAuthCallback
  rw [if_neg (by simp [hcb])]
  dsimp only
  by_cases herr : (w.url.get errorKey).getD "" = ""
  · rw [if_neg (by simpa using herr)]
    by_cases hcd : (w.url.get codeKey).getD "" = ""
    · rw [if_pos hcd]
      exact ⟨noCodeMsg, rfl, fun _ hc => absurd hcd hc⟩
    · rw [if_neg (by simpa using hcd), if_pos hmm]
      exact ⟨invalidStateMsg, rfl, fun _ _ => rfl⟩
  · rw [if_pos (by simpa using herr)]
    exact ⟨oauthErrMsgHead ++ (w.url.get errorKey).getD "", rfl,
      fun hc _ => absurd hc herr⟩

/-- C1 counterexample: on a callback URL carrying `code=abc`, `state=X` and
`error=denied` while the session stores `state=Y` (a mismatch), the run
fails with the OAuth error, not with the state-mismatch error — the claim's
"fails with a state-mismatch error" does not hold for this callback. -/
theorem c1_counterexample :
    mismatchErrWorld.url.get stateKey ≠
      jsOrStr mismatchErrWorld.session.oauth_state
        mismatchErrWorld.session.keycloak_state ∧
    (handleOAuthCallback none 0 mismatchErrWorld).1 =
      Except.error (oauthErrMsgHead ++ ("denied")) ∧
    (handleOAuthCallback none 0 mismatchErrWorld).1 ≠
      Except.error invalidStateMsg :=
  ⟨by decide, rfl, by simp [handleOAuthCallback, mismatchErrWorld, invalidStateMsg,
    oauthErrMsgHead, cbFail, isOAuthCallback, Url.has, Url.get, codeKey, stateKey,
    errorKey]⟩

/-- C1 (amended): on every callback URL (carrying `code` and `state`) whose
`state` differs from the stored one, no token-exchange request is made and
the manager ends `Unauthenticated`; the failure carries the state-mismatch
error whenever the URL has no `error` parameter and a non-empty code (a
URL that also carries `error`, or an empty code value, fails earlier with
the corresponding error). -/
theorem c1_state_mismatch (exchange : Option TokenSet) (now : Int)
    (st : StoreState) (w : SvcWorld)
    (hcb : isOAuthCallback w.url = true)
    (hmm : w.url.get stateKey ≠ jsOrStr w.session.oauth_state w.session.keycloak_state) :
    (handleOAuthCallback exchange now w).2.exchangeCount = w.exchangeCount ∧
    (storeInitCallback exchange now st w).1.isAuthenticated = false ∧
    ((w.url.get errorKey).getD "" = "" → (w.url.get codeKey).getD "" ≠ "" →
      (handleOAuthCallback exchange now w).1 = Except.error invalidStateMsg) := by
  obtain ⟨msg, heq, hmsg⟩ := hoc_mismatch_shape exchange now w hcb hmm
  refine ⟨?_, ?_, ?_⟩
  · rw [heq]
    simp [cbFail, clearTokens]
  · unfold storeInitCallback
    rw [heq]
    simp [cbFail, clearAuthState]
  · intro he hc
    rw [heq, hmsg he hc]
    rfl

/-- Witness for C1 (amended) at a concrete mismatching callback world
(URL state `X`, stored state `Y`, no `error` parameter). -/
theorem c1_witness :
    (handleOAuthCallback none 0 mismatchWorld).2.exchangeCount =
      mismatchWorld.exchangeCount ∧
    (storeInitCallback none 0 emptyStore mismatchWorld).1.isAuthenticated = false ∧
    (handleOAuthCallback none 0 mismatchWorld).1 = Except.error invalidStateMsg :=
  ⟨(c1_state_mismatch none 0 emptyStore mismatchWorld (by decide) (by decide)).1,
   (c1_state_mismatch none 0 emptyStore mismatchWorld (by decide) (by decide)).2.1,
   (c1_state_mismatch none 0 emptyStore mismatchWorld (by decide) (by decide)).2.2
     (by decide) (by decide)⟩

/-- Every run of `handleOAuthCallback` has one of three shapes: a thrown
error passed through the catch block, a successful completion through the
URL-cleaning tail (on a world whose URL is still the incoming one), or the
early `false` return on a non-callback URL. -/
theorem hoc_shape (exchange : Option TokenSet) (now : Int) (w : SvcWorld) :
    (∃ msg w1, handleOAuthCallback exchange now w = cbFail w1 msg) ∨
    (∃ w1, handleOAuthCallback exchange now w = cbSuccess w1 ∧ w1.url = w.url) ∨
    handleOAuthCallback exchange now w = (Except.ok false, w) := by
  unfold handleOAuthCallback
  dsimp only
  split
  · exact Or.inr (Or.inr rfl)
  · split
    · exact Or.inl ⟨_, _, rfl⟩
    · split
      · exact Or.inl ⟨_, _, rfl⟩
      · split
        · exact Or.inl ⟨_, _, rfl⟩
        · split
          · exact Or.inl ⟨_, _, rfl⟩
          · split
            · split
              · exact Or.inl ⟨_, _, rfl⟩
              · exact Or.inr (Or.inl ⟨_, rfl, rfl⟩)
            · exact Or.inr (Or.inl ⟨_, rfl, rfl⟩)

/-- C5 counterexample: a callback run whose token exchange fails (non-2xx)
completes with the `code` and `state` query parameters still present in the
visible URL — the claim's "whether the token exchange succeeds or fails,
the parameters are removed" does not hold on the failing run. -/
theorem c5_counterexample :
    (handleOAuthCallback none 0 matchedWorld).1 = Except.error exchangeFailedMsg ∧
    (handleOAuthCallback none 0 matchedWorld).2.url.has codeKey = true ∧
    (handleOAuthCallback none 0 matchedWorld).2.url.has stateKey = true :=
  ⟨rfl, by decide, by decide⟩

/-- C5 (amended): every **successful** callback processing run removes the
query parameters from the visible URL via the non-navigating
`history.replaceState` (the path is preserved, the query string dropped);
a failed run (such as a failed token exchange) leaves the query parameters
in place. -/
theorem c5_success_cleans_url (exchange : Option TokenSet) (now : Int) (w : SvcWorld)
    (h : (handleOAuthCallback exchange now w).1 = Except.ok true) :
    (handleOAuthCallback exchange now w).2.url.params = [] ∧
    (handleOAuthCallback exchange now w).2.url.path = w.url.path := by
  rcases hoc_shape exchange now w with ⟨msg, w1, heq⟩ | ⟨w1, heq, hurl⟩ | heq
  · rw [heq] at h
    exact absurd h (by simp [cbFail])
  · rw [heq]
    rw [heq] at h
    refine ⟨rfl, ?_⟩
    show ({ w1.url with params := [] } : Url).path = w.url.path
    rw [show ({ w1.url with params := [] } : Url).path = w1.url.path from rfl, hurl]
  · rw [heq] at h
    exact absurd h (by simp)

/-- Witness for C5 (amended) on a concrete successful run. -/
theorem c5_witness :
    (handleOAuthCallback (some sampleTokens) 0 matchedWorld).2.url.params = [] ∧
    (handleOAuthCallback (some sampleTokens) 0 matchedWorld).2.url.path =
      matchedWorld.url.path :=
  c5_success_cleans_url (some sampleTokens) 0 matchedWorld rfl

/-- Applying the two character replacements to the standard-alphabet entry
at any index gives the base64url-alphabet entry at the same index (the two
alphabets differ exactly at indices 62 and 63). -/
theorem replace_alpha (i : Nat) :
    replacePlusSlash (stdAlphabet.getD i 'A') = urlAlphabet.getD i 'A' := by
  by_cases hi : i < 64
  · have h : ∀ j, j < 64 →
        replacePlusSlash (stdAlphabet.getD j 'A') = urlAlphabet.getD j 'A' := by decide
    exact h i hi
  · have h1 : stdAlphabet.length ≤ i := by
      have : stdAlphabet.length = 64 := by decide
      omega
    have h2 : urlAlphabet.length ≤ i := by
      have : urlAlphabet.length = 64 := by decide
      omega
    rw [List.getD_eq_default _ _ h1, List.getD_eq_default _ _ h2]
    rfl

/-- No base64url-alphabet entry (nor the out-of-range default) is one of
the characters `+`, `/` or `=`. -/
theorem urlAlpha_allowed (i : Nat) :
    urlAlphabet.getD i 'A' ≠ '+' ∧ urlAlphabet.getD i 'A' ≠ '/' ∧
    urlAlphabet.getD i 'A' ≠ '=' := by
  by_cases hi : i < 64
  · have h : ∀ j, j < 64 → urlAlphabet.getD j 'A' ≠ '+' ∧
        urlAlphabet.getD j 'A' ≠ '/' ∧ urlAlphabet.getD j 'A' ≠ '=' := by decide
    exact h i hi
  · have h2 : urlAlphabet.length ≤ i := by
      have : urlAlphabet.length = 64 := by decide
      omega
    rw [List.getD_eq_default _ _ h2]
    decide

/-- The replaced standard-alphabet entry is never the padding character. -/
theorem replace_alpha_ne_pad (i : Nat) :
    replacePlusSlash (stdAlphabet.getD i 'A') ≠ '=' := by
  rw [replace_alpha]
  exact (urlAlpha_allowed i).2.2

/-- Filtering `≠ '='` keeps a non-padding head. -/
theorem filter_pad_cons (c : Char) (hc : c ≠ '=') (l : List Char) :
    (c :: l).filter (fun x => x ≠ '=') = c :: l.filter (fun x => x ≠ '=') := by
  simp [List.filter_cons, hc]

/-- Filtering `≠ '='` drops a padding head. -/
theorem filter_pad_drop (l : List Char) :
    ('=' :: l).filter (fun x => x ≠ '=') = l.filter (fun x => x ≠ '=') := by
  simp [List.filter_cons]

/-- The source pipeline — `btoa`, the `+`/`/` replacements, and deletion of
every `=` — coincides with base64url encoding without padding. -/
theorem codeChallengeEncode_eq (bs : List Nat) :
    codeChallengeEncode bs = b64urlNoPad bs := by
  induction bs using b64encode.induct with
  | case1 => rfl
  | case2 b1 =>
    unfold codeChallengeEncode
    rw [show b64encode [b1] =
      [stdAlphabet.getD (b1 / 4) 'A', stdAlphabet.getD (b1 % 4 * 16) 'A', '=', '=']
      from rfl]
    rw [List.map_cons, List.map_cons, List.map_cons, List.map_cons, List.map_nil]
    rw [filter_pad_cons _ (replace_alpha_ne_pad _), filter_pad_cons _ (replace_alpha_ne_pad _)]
    rw [show replacePlusSlash '=' = '=' from rfl, filter_pad_drop, filter_pad_drop,
      List.filter_nil]
    rw [replace_alpha, replace_alpha]
    rfl
  | case3 b1 b2 =>
    unfold codeChallengeEncode
    rw [show b64encode [b1, b2] =
      [stdAlphabet.getD (b1 / 4) 'A', stdAlphabet.getD (b1 % 4 * 16 + b2 / 16) 'A',
       stdAlphabet.getD (b2 % 16 * 4) 'A', '='] from rfl]
    rw [List.map_cons, List.map_cons, List.map_cons, List.map_cons, List.map_nil]
    rw [filter_pad_cons _ (replace_alpha_ne_pad _), filter_pad_cons _ (replace_alpha_ne_pad _),
      filter_pad_cons _ (replace_alpha_ne_pad _)]
    rw [show replacePlusSlash '=' = '=' from rfl, filter_pad_drop, List.filter_nil]
    rw [replace_alpha, replace_alpha, replace_alpha]
    rfl
  | case4 b1 b2 b3 rest ih =>
    unfold codeChallengeEncode
    rw [show b64encode (b1 :: b2 :: b3 :: rest) =
      stdAlphabet.getD (b1 / 4) 'A' :: stdAlphabet.getD (b1 % 4 * 16 + b2 / 16) 'A' ::
      stdAlphabet.getD (b2 % 16 * 4 + b3 / 64) 'A' :: stdAlphabet.getD (b3 % 64) 'A' ::
      b64encode rest from rfl]
    rw [List.map_cons, List.map_cons, List.map_cons, List.map_cons]
    rw [filter_pad_cons _ (replace_alpha_ne_pad _), filter_pad_cons _ (replace_alpha_ne_pad _),
      filter_pad_cons _ (replace_alpha_ne_pad _), filter_pad_cons _ (replace_alpha_ne_pad _)]
    rw [replace_alpha, replace_alpha, replace_alpha, replace_alpha]
    rw [show ((b64encode rest).map replacePlusSlash).filter (fun c => c ≠ '=') =
      codeChallengeEncode rest from rfl, ih]
    rfl

/-- Every character emitted by the base64url-no-padding encoder avoids
`+`, `/` and `=`. -/
theorem b64urlNoPad_avoid (bs : List Nat) :
    ∀ c ∈ b64urlNoPad bs, c ≠ '+' ∧ c ≠ '/' ∧ c ≠ '=' := by
  induction bs using b64urlNoPad.induct with
  | case1 =>
    intro c hc
    simp only [b64urlNoPad, List.not_mem_nil] at hc
  | case2 b1 =>
    intro c hc
    simp only [b64urlNoPad, List.mem_cons, List.not_mem_nil, or_false] at hc
    rcases hc with rfl | rfl
    · exact urlAlpha_allowed _
    · exact urlAlpha_allowed _
  | case3 b1 b2 =>
    intro c hc
    simp only [b64urlNoPad, List.mem_cons, List.not_mem_nil, or_false] at hc
    rcases hc with rfl | rfl | rfl
    · exact urlAlpha_allowed _
    · exact urlAlpha_allowed _
    · exact urlAlpha_allowed _
  | case4 b1 b2 b3 rest ih =>
    intro c hc
    simp only [b64urlNoPad, List.mem_cons] at hc
    rcases hc with rfl | rfl | rfl | rfl | h
    · exact urlAlpha_allowed _
    · exact urlAlpha_allowed _
    · exact urlAlpha_allowed _
    · exact urlAlpha_allowed _
    · exact ih c h

/-- A list none of whose members is `c` does not `contains` `c`. -/
theorem contains_eq_false_of_forall_ne {l : List Char} {c : Char}
    (h : ∀ x ∈ l, x ≠ c) : l.contains c = false := by
  induction l with
  | nil => rfl
  | cons a t ih =>
    have ha : (c == a) = false :=
      beq_eq_false_iff_ne.mpr (Ne.symm (h a (List.mem_cons_self a t)))
    have ht := ih (fun x hx => h x (List.mem_cons_of_mem a hx))
    rw [List.contains_cons, ha, ht]
    rfl

/-- C3: `generateCodeChallenge` equals the digest base64url-encoded without
padding (the spec-side encoder `generateCodeChallengeSpec`), and its result
never contains the characters `+`, `/` or `=`.  Determinism holds by
construction: the embedding is a pure function of verifier and digest. -/
theorem c3_code_challenge (digest : List Nat → List Nat) (verifier : String) :
    generateCodeChallenge digest verifier = generateCodeChallengeSpec digest verifier ∧
    (generateCodeChallenge digest verifier).toList.contains '+' = false ∧
    (generateCodeChallenge digest verifier).toList.contains '/' = false ∧
    (generateCodeChallenge digest verifier).toList.contains '=' = false := by
  have heq : generateCodeChallenge digest verifier =
      generateCodeChallengeSpec digest verifier := by
    unfold generateCodeChallenge generateCodeChallengeSpec
    rw [codeChallengeEncode_eq]
  have hlist : (generateCodeChallenge digest verifier).toList =
      b64urlNoPad (digest (utf8Bytes verifier)) := by
    rw [heq]
    rfl
  have havoid := b64urlNoPad_avoid (digest (utf8Bytes verifier))
  refine ⟨heq, ?_, ?_, ?_⟩ <;> rw [hlist]
  · exact contains_eq_false_of_forall_ne (fun x hx => (havoid x hx).1)
  · exact contains_eq_false_of_forall_ne (fun x hx => (havoid x hx).2.1)
  · exact contains_eq_false_of_forall_ne (fun x hx => (havoid x hx).2.2)

/-- One atomic block never returns a call to its invocation point. -/
theorem initStep_pc_ne_entry (ok st : Bool) (sh : InitShared) (pc : InitPc) :
    (initStep ok st sh pc).2 ≠ .entry := by
  cases pc <;> unfold initStep <;> dsimp only <;> repeat' split
  all_goals simp

/-- The exchange accounting is preserved by every atomic block. -/
theorem countInv_step (ok st : Bool) (sh : InitShared) (pc : InitPc)
    (h : countInv sh pc) : countInv (initStep ok st sh pc).1 (initStep ok st sh pc).2 := by
  obtain ⟨h1, h2⟩ := h
  cases pc <;> unfold initStep <;> dsimp only <;> repeat' split
  all_goals refine ⟨?_, ?_⟩ <;> dsimp only
  all_goals
    first
      | omega
      | (have h0 : sh.exchanges = 0 := h2 (Or.inr rfl); omega)
      | (intro hc; rcases hc with hc | hc <;>
          first
            | exact h2 (Or.inl rfl)
            | exact h2 (Or.inr rfl)
            | exact nomatch hc)

/-- While a call has passed its entry block and is not yet finished, the
`isInitializing` flag it set stays set across its own blocks. -/
theorem initStep_initializing (ok st : Bool) (sh : InitShared) (pc : InitPc)
    (hpc : pc ≠ .entry) (h : pc ≠ .done → sh.initializing = true)
    (hnd : (initStep ok st sh pc).2 ≠ .done) :
    (initStep ok st sh pc).1.initializing = true := by
  cases pc with
  | entry => exact absurd rfl hpc
  | sSetTokens => exact absurd rfl hnd
  | sStoreCatch => exact absurd rfl hnd
  | sStoreNoCb => exact absurd rfl hnd
  | done => exact absurd rfl hnd
  | afterConfig =>
    have hi := h (by simp)
    unfold initStep
    dsimp only
    repeat' split
    all_goals simpa using hi
  | sFetch =>
    have hi := h (by simp)
    unfold initStep
    dsimp only
    split <;> exact hi
  | sJson =>
    have hi := h (by simp)
    simpa [initStep] using hi
  | sStoreResume => exact h (by simp)
  | sFailText =>
    have hi := h (by simp)
    simpa [initStep] using hi

/-- A block of the first call preserves the phase-1 invariant. -/
theorem phase1Inv_stepA (okA stA okB stB : Bool) (c : InitCfg)
    (h : phase1Inv c) : phase1Inv (schedStep okA stA okB stB c true) := by
  obtain ⟨hB, hA, hinit, hcnt⟩ := h
  refine ⟨hB, ?_, ?_, ?_⟩
  · exact initStep_pc_ne_entry okA stA c.sh c.pcA
  · exact fun hnd => initStep_initializing okA stA c.sh c.pcA hA hinit hnd
  · exact countInv_step okA stA c.sh c.pcA hcnt

/-- Phase-1 invariant after the first call's entry block. -/
theorem phase1Inv_first (okA stA okB stB : Bool) :
    phase1Inv (schedStep okA stA okB stB initCfg0 true) := by
  refine ⟨rfl, by simp [schedStep, initCfg0, initStep, initShared0], fun _ => rfl, ?_⟩
  exact ⟨by simp [schedStep, initCfg0, initStep, initShared0], fun _ => rfl⟩

/-- The phase-1 invariant holds along any schedule that only runs the
first call. -/
theorem phase1Inv_run_trues (okA stA okB stB : Bool) (p : List Bool)
    (hall : ∀ b ∈ p, b = true) (c : InitCfg) (h : phase1Inv c) :
    phase1Inv (schedRun okA stA okB stB c p) := by
  induction p generalizing c with
  | nil => exact h
  | cons b t ih =>
    have hb : b = true := hall b (List.mem_cons_self b t)
    subst hb
    exact ih (fun x hx => hall x (List.mem_cons_of_mem _ hx)) _
      (phase1Inv_stepA okA stA okB stB c h)

/-- The junction: while the first call has entered and not yet finished,
the second call's entry block observes the guard set and finishes at once,
moving the system into phase 2. -/
theorem phase1_to_phase2 (okA stA okB stB : Bool) (c : InitCfg)
    (h : phase1Inv c) (hnd : c.pcA ≠ .done) :
    phase2Inv (schedStep okA stA okB stB c false) ∧
    (schedStep okA stA okB stB c false).pcB = .done := by
  obtain ⟨hB, _hA, hinit, hcnt⟩ := h
  have hi : c.sh.initializing = true := hinit hnd
  have hstep : initStep okB stB c.sh c.pcB = (c.sh, .done) := by
    rw [hB]
    unfold initStep
    dsimp only
    rw [if_pos (by simp [hi])]
  refine ⟨⟨?_, ?_⟩, ?_⟩
  · show (initStep okB stB c.sh c.pcB).2 = .done
    rw [hstep]
  · show countInv (initStep okB stB c.sh c.pcB).1 c.pcA
    rw [hstep]
    exact hcnt
  · show (initStep okB stB c.sh c.pcB).2 = .done
    rw [hstep]

/-- Any block of either call preserves the phase-2 invariant. -/
theorem phase2Inv_step (okA stA okB stB : Bool) (c : InitCfg) (b : Bool)
    (h : phase2Inv c) : phase2Inv (schedStep okA stA okB stB c b) := by
  obtain ⟨hB, hcnt⟩ := h
  cases b
  · have hstep : initStep okB stB c.sh c.pcB = (c.sh, .done) := by
      rw [hB]; rfl
    exact ⟨(by show (initStep okB stB c.sh c.pcB).2 = .done; rw [hstep]),
      (by show countInv (initStep okB stB c.sh c.pcB).1 c.pcA; rw [hstep]; exact hcnt)⟩
  · exact ⟨hB, countInv_step okA stA c.sh c.pcA hcnt⟩

/-- The phase-2 invariant holds along any continuation schedule. -/
theorem phase2Inv_run (okA stA okB stB : Bool) (q : List Bool) (c : InitCfg)
    (h : phase2Inv c) : phase2Inv (schedRun okA stA okB stB c q) := by
  induction q generalizing c with
  | nil => exact h
  | cons b t ih => exact ih _ (phase2Inv_step okA stA okB stB c b h)

/-- C2: with the current URL an OAuth callback URL, for every interleaving
in which `initialize()` is invoked twice — the first call invoked first
(the schedule prefix `p` runs only the first call), the second call's
invocation happening before the first call resolves (`pcA ≠ done` after
`p`) — at most one token-exchange request is issued over the whole run, and
the second call finishes immediately at its entry block: it observes the
shared guard flags already set and skips callback processing. -/
theorem c2_single_exchange (okA stA okB stB : Bool) (p q : List Bool)
    (hne : p ≠ []) (hall : ∀ b ∈ p, b = true)
    (hnd : (schedRun okA stA okB stB initCfg0 p).pcA ≠ .done) :
    (schedRun okA stA okB stB initCfg0 (p ++ false :: q)).sh.exchanges ≤ 1 ∧
    (schedRun okA stA okB stB initCfg0 (p ++ [false])).pcB = .done := by
  obtain ⟨b, t, rfl⟩ := List.exists_cons_of_ne_nil hne
  have hb : b = true := hall b (List.mem_cons_self b t)
  subst hb
  have h1 : phase1Inv (schedRun okA stA okB stB initCfg0 (true :: t)) := by
    have hsplit : schedRun okA stA okB stB initCfg0 (true :: t) =
        schedRun okA stA okB stB (schedStep okA stA okB stB initCfg0 true) t := rfl
    rw [hsplit]
    exact phase1Inv_run_trues okA stA okB stB t
      (fun x hx => hall x (List.mem_cons_of_mem _ hx)) _
      (phase1Inv_first okA stA okB stB)
  have hj := phase1_to_phase2 okA stA okB stB
    (schedRun okA stA okB stB initCfg0 (true :: t)) h1 hnd
  have hrun1 : schedRun okA stA okB stB initCfg0 ((true :: t) ++ false :: q) =
      schedRun okA stA okB stB
        (schedStep okA stA okB stB (schedRun okA stA okB stB initCfg0 (true :: t)) false)
        q := by
    unfold schedRun
    rw [List.foldl_append, List.foldl_cons]
  have hrun2 : schedRun okA stA okB stB initCfg0 ((true :: t) ++ [false]) =
      schedStep okA stA okB stB (schedRun okA stA okB stB initCfg0 (true :: t)) false := by
    unfold schedRun
    rw [List.foldl_append, List.foldl_cons, List.foldl_nil]
  constructor
  · rw [hrun1]
    exact (phase2Inv_run okA stA okB stB q _ hj.1).2.1
  · rw [hrun2]
    exact hj.2

/-- Witness for C2: the first call runs its entry block, the second call is
invoked, and the schedule then completes both calls; one exchange request
in total, the second call finished directly after its entry block. -/
theorem c2_witness :
    (schedRun true true true true initCfg0
      ([true] ++ false :: [true, true, true, true, true])).sh.exchanges ≤ 1 ∧
    (schedRun true true true true initCfg0 ([true] ++ [false])).pcB = .done :=
  c2_single_exchange true true true true [true] [true, true, true, true, true]
    (by decide) (by decide) (by decide)

end KeycloakLogin
